import Mathlib

/-!
Shallow embedding of the petrel ORM layer (src/orm/orm.go).

Modelling conventions:
- Go strings are Lean `String`s; all identifiers, tags and SQL fragments in
  the claims are ASCII, and the model assumes ASCII text (the Go code does
  `c += 32` and `byte(c)` which are exact only for ASCII; `bytes.Buffer.Truncate`
  counts bytes, `String.dropRight` counts characters — these agree on ASCII).
- Go `int` is modelled as `Int` (no arithmetic is performed on offset/limit
  other than comparison with 0 and printing, so overflow is irrelevant).
- The `*sql.DB` handle inside `Stmt` is not part of the pure state; the
  result of `db.Query`/`db.Exec` is passed to the modelled function as an
  explicit argument (the environment's response).
- Functions that in Go append to a `bytes.Buffer` are modelled as returning
  the appended text; callers concatenate.
-/

namespace Petrel.Orm

/-- One struct field as seen by `reflect`: declared name, `PkgPath`
(non-empty iff the field is unexported), `Anonymous`, and the values of the
struct tags `db` and `db_default` (empty string when absent). -/
structure GoField where
  name : String
  pkgPath : String
  anonymous : Bool
  dbTag : String
  dbDefault : String
deriving DecidableEq, Repr

/-- The skip test used in every field loop of orm.go:
`f.PkgPath != "" && !f.Anonymous` means the field is skipped; a field is
mapped when it is exported or anonymous. -/
def isMapped (f : GoField) : Bool :=
  f.pkgPath == "" || f.anonymous

/-- `Stmt` from orm.go, minus the `db` handle (see module comment).
The Go field `where` is rendered `whereC` because `where` is a Lean keyword. -/
structure Stmt where
  table : String
  whereC : String
  sort : String
  order : String
  group : String
  offset : Int
  limit : Int
deriving DecidableEq, Repr

/-- `NewStmt`: table set, every other field zero-valued. -/
def NewStmt (table : String) : Stmt :=
  { table := table, whereC := "", sort := "", order := "", group := "",
    offset := 0, limit := 0 }

/-- `Where` with no varargs: stores the text verbatim. (With varargs Go
formats the template first; no claim exercises that path.) -/
def Where (s : Stmt) (f : String) : Stmt := { s with whereC := f }

/-- `Sort` (named `SortBy` here because `Sort` is a Lean keyword). -/
def SortBy (s : Stmt) (sort : String) : Stmt := { s with sort := sort }

/-- `Group`. -/
def Group (s : Stmt) (group : String) : Stmt := { s with group := group }

/-- `Order`. -/
def Order (s : Stmt) (order : String) : Stmt := { s with order := order }

/-- `Offset`. -/
def Offset (s : Stmt) (offset : Int) : Stmt := { s with offset := offset }

/-- `Limit`. -/
def Limit (s : Stmt) (limit : Int) : Stmt := { s with limit := limit }

/-- Character-level loop of `FieldEscape`: `up` is the Go local of the same
name (true initially and after an uppercase letter). An uppercase letter is
preceded by an underscore when `up` is false, and is lowercased by adding 32. -/
def fieldEscapeAux : Bool → List Char → List Char
  | _, [] => []
  | up, c :: cs =>
    if c.isUpper then
      (if !up then ['_'] else []) ++ Char.ofNat (c.toNat + 32) :: fieldEscapeAux true cs
    else
      c :: fieldEscapeAux false cs

/-- `FieldEscape` from orm.go: medial-capital identifier to
lowercase-with-underscores. -/
def FieldEscape (k : String) : String :=
  ⟨fieldEscapeAux true k.data⟩

/-- Column-name resolution as done inline at each use site
(`SQLQuery`, `SQLInsert`, `SQLUpdate`): the `db` tag verbatim when non-empty,
otherwise `FieldEscape` of the field name. -/
def resolveName (f : GoField) : String :=
  if f.dbTag == "" then FieldEscape f.name else f.dbTag

/-- `SQLCondition`: the where / order by / group by / limit suffix.
Returns the text appended to the buffer. -/
def SQLCondition (s : Stmt) : String :=
  (if s.whereC ≠ "" then " where " ++ s.whereC else "") ++
  (if s.sort ≠ "" then
      " order by " ++ s.sort ++ (if s.order ≠ "" then " " ++ s.order else "")
    else "") ++
  (if s.group ≠ "" then " group by " ++ s.group else "") ++
  (if s.limit > 0 then
      " limit " ++ (if s.offset > 0 then toString s.offset ++ "," else "")
        ++ toString s.limit
    else "")

/-- `SQLCount`. -/
def SQLCount (s : Stmt) : String :=
  "select count(*) from " ++ s.table ++ SQLCondition s

/-- Buffer contents of the column loop of `SQLQuery`: for each mapped field,
the first table qualifier (unless the resolved name already contains a dot)
then the name and a trailing comma-space. -/
def sqlQueryCols (firstTable : String) : List GoField → String
  | [] => ""
  | f :: fs =>
    (if isMapped f then
        let name := resolveName f
        (if name.contains '.' then "" else firstTable ++ ".") ++ name ++ ", "
      else "") ++ sqlQueryCols firstTable fs

/-- `SQLQuery`: select list built from the record type, then
`from <table>` and the condition. The `Truncate(Len()-2)` removing the last
comma-space is `dropRight 2`. -/
def SQLQuery (s : Stmt) (fields : List GoField) : String :=
  let firstTable := (s.table.splitOn ",").headD ""
  ("select " ++ sqlQueryCols firstTable fields).dropRight 2
    ++ " from " ++ s.table ++ SQLCondition s

/-! ## Mutation compilers (`SQLInsert`, `SQLUpdate`) -/

/-- The shared per-field emission of `SQLInsert` and `SQLUpdate` (their field
loops are identical): walking the record's (field, value) pairs in declaration
order, produce the emitted column names, the emitted value texts (`"?"` for a
placeholder, otherwise the literal `db_default` text) and the bound arguments
(`refs`). A field is skipped when unexported-and-not-anonymous or when its
`db_default` tag is `auto`. Record values are modelled as `Int`
(`rv.Field(i).Interface()` is opaque to the SQL builder). -/
def mutationEmit : List (GoField × Int) → List String × List String × List Int
  | [] => ([], [], [])
  | (f, v) :: rest =>
    let (cs, vs, rs) := mutationEmit rest
    if !isMapped f then (cs, vs, rs)
    else if f.dbDefault == "auto" then (cs, vs, rs)
    else
      let name := resolveName f
      if f.dbDefault != "" then (name :: cs, f.dbDefault :: vs, rs)
      else (name :: cs, "?" :: vs, v :: rs)

/-- Buffer text of a column/value loop: each entry followed by comma-space,
as written by `WriteString(x); WriteString(", ")`. -/
def emitList (xs : List String) : String :=
  String.join (xs.map (· ++ ", "))

/-- `SQLInsert`: the `bs` buffer (`insert into <table> (` plus columns,
truncated by 2) followed by the `dbs` buffer (`) values (` plus value texts,
truncated by 2) and `) `; `refs` are the bound arguments. -/
def SQLInsert (s : Stmt) (fvs : List (GoField × Int)) : String × List Int :=
  let (cs, vs, rs) := mutationEmit fvs
  (("insert into " ++ s.table ++ " (" ++ emitList cs).dropRight 2
    ++ ((") values (" ++ emitList vs).dropRight 2) ++ ") ", rs)

/-- `SQLUpdate`: `` update `<table>` set `` then per field
`` `<name>`=<value-text>, ``, truncated by 2, then the rendered condition. -/
def SQLUpdate (s : Stmt) (fvs : List (GoField × Int)) : String × List Int :=
  let (cs, vs, rs) := mutationEmit fvs
  (("update `" ++ s.table ++ "` set "
      ++ emitList (List.zipWith (fun c v => "`" ++ c ++ "`=" ++ v) cs vs)).dropRight 2
    ++ SQLCondition s, rs)

/-! ## Targets, outcomes and the executor -/

/-- A scanned row already bound to a record: the record's field values.
A `Except.error` entry models `rows.Scan` failing on that row. -/
abbrev Rec := List Int

/-- The shape of the `result` argument of `Query`, as `reflect` sees it.
`toStruct`: pointer to a struct (single-record target). `toSlice`: pointer to
a slice of struct, with the slice's current contents (Go reuses the caller's
slice value as the accumulator). `toSliceBad`: pointer to a slice whose
element type is not a struct. `toOther`: pointer to a non-struct, non-slice
type. `nonPtr`: not a pointer at all; `kind` is the `reflect.Kind` text. -/
inductive Target where
  | nonPtr (kind : String)
  | toStruct (fields : List GoField)
  | toSlice (fields : List GoField) (init : List Rec)
  | toSliceBad (elemKind : String)
  | toOther (kind : String)
deriving DecidableEq, Repr

/-- Outcome of `Query`. `errNotPtr` and `errNoField` are the two
`fmt.Errorf` returns; `errDriver` wraps the `db.Query` error; `errScan`
wraps a `rows.Scan` error; `errNotFound` is `errors.Trace(ErrNotFound)`;
`panicked` models a `reflect` panic (e.g. `NumField` of a non-struct type,
which panics rather than returning an error); `okSingle`/`okSlice` are the
`nil` returns with the value assigned to the target. -/
inductive QOutcome where
  | errNotPtr (kind : String)
  | errNoField
  | errDriver (e : String)
  | errScan (e : String)
  | errNotFound
  | panicked (msg : String)
  | okSingle (r : Rec)
  | okSlice (rs : List Rec)
deriving DecidableEq, Repr

/-- Observable trace of one `Query` call: the outcome, every SQL string
assembled, every SQL string handed to the storage handle, the number of rows
consumed from the cursor, and the descriptor state after the call (`Query`
has a pointer receiver and may mutate `s.limit`). -/
structure QTrace where
  outcome : QOutcome
  builtSQL : List String
  executed : List String
  rowsConsumed : Nat
  stmtAfter : Stmt
deriving DecidableEq, Repr

/-- The row loop for a single-record target: the first row is scanned and,
on success, assigned to the target with an immediate `return nil`; rows
after the first are never consumed. An exhausted cursor with no row scanned
falls through to the `ErrNotFound` return (the target keeps `Struct` kind). -/
def queryLoopSingle : List (Except String Rec) → QOutcome × Nat
  | [] => (.errNotFound, 0)
  | .error e :: _ => (.errScan e, 1)
  | .ok r :: _ => (.okSingle r, 1)

/-- The row loop for a collection target: every row is scanned and appended
to the accumulator (initialised with the caller's slice contents); a scan
error aborts. After the loop, an accumulator of length 0 yields
`ErrNotFound`, otherwise the accumulator is assigned to the target. -/
def queryLoopSlice : List (Except String Rec) → List Rec → Nat → QOutcome × Nat
  | [], acc, n => if acc.length == 0 then (.errNotFound, n) else (.okSlice acc, n)
  | .error e :: _, _, n => (.errScan e, n + 1)
  | .ok r :: rest, acc, n => queryLoopSlice rest (acc ++ [r]) (n + 1)

/-- `Query` from orm.go. `db` is the storage handle's response to
`s.db.Query(sql)`: a driver error or the cursor's rows (each row scanning to
a record or to a scan error). For a non-slice, non-struct pointee and for a
slice of non-structs, `rt.NumField()` panics (Go `reflect` semantics). Note
the limit mutation happens before the empty-struct check. -/
def Query (s : Stmt) (target : Target) (db : Except String (List (Except String Rec))) :
    QTrace :=
  match target with
  | .nonPtr kind =>
    ⟨.errNotPtr kind, [], [], 0, s⟩
  | .toOther kind =>
    ⟨.panicked ("reflect: NumField of non-struct type " ++ kind), [], [], 0,
      { s with limit := 1 }⟩
  | .toSliceBad elemKind =>
    ⟨.panicked ("reflect: NumField of non-struct type " ++ elemKind), [], [], 0, s⟩
  | .toStruct fields =>
    let s1 := { s with limit := 1 }
    if fields.length == 0 then ⟨.errNoField, [], [], 0, s1⟩
    else
      let sql := SQLQuery s1 fields
      match db with
      | .error e => ⟨.errDriver e, [sql], [sql], 0, s1⟩
      | .ok rows =>
        let (out, n) := queryLoopSingle rows
        ⟨out, [sql], [sql], n, s1⟩
  | .toSlice fields init =>
    if fields.length == 0 then ⟨.errNoField, [], [], 0, s⟩
    else
      let sql := SQLQuery s fields
      match db with
      | .error e => ⟨.errDriver e, [sql], [sql], 0, s⟩
      | .ok rows =>
        let (out, n) := queryLoopSlice rows init 0
        ⟨out, [sql], [sql], n, s⟩

/-- Outcome of `Insert` / `Update`: the `data not found field` error, a
driver error from `db.Exec`, or success carrying `LastInsertId` /
`RowsAffected`. -/
inductive MOutcome where
  | errNoField
  | errDriver (e : String)
  | ok (n : Int)
deriving DecidableEq, Repr

/-- Observable trace of one `Insert` or `Update` call. -/
structure MTrace where
  outcome : MOutcome
  builtSQL : List String
  executed : List String
deriving DecidableEq, Repr

/-- `Insert` from orm.go; `fvs` is the (already pointer-dereferenced) record
type and value, `db` the handle's response to `db.Exec` (`LastInsertId` on
success). `rt.NumField() == 0` is checked before any SQL is built. -/
def Insert (s : Stmt) (fvs : List (GoField × Int)) (db : Except String Int) : MTrace :=
  if fvs.length == 0 then ⟨.errNoField, [], []⟩
  else
    let (sql, _) := SQLInsert s fvs
    match db with
    | .error e => ⟨.errDriver e, [sql], [sql]⟩
    | .ok n => ⟨.ok n, [sql], [sql]⟩

/-- `Update` from orm.go; same shape as `Insert`, with `RowsAffected` on
success. -/
def Update (s : Stmt) (fvs : List (GoField × Int)) (db : Except String Int) : MTrace :=
  if fvs.length == 0 then ⟨.errNoField, [], []⟩
  else
    let (sql, _) := SQLUpdate s fvs
    match db with
    | .error e => ⟨.errDriver e, [sql], [sql]⟩
    | .ok n => ⟨.ok n, [sql], [sql]⟩

/-- `SQLQueryBuilder` result: the `fmt.Errorf` error, a `reflect` panic, or
the SQL string. -/
inductive BuildResult where
  | err (msg : String)
  | panicked (msg : String)
  | ok (sql : String)
deriving DecidableEq, Repr

/-- `SQLQueryBuilder` from orm.go: same target dissection as `Query`
(non-pointer rejected; slice unwrapped to its element; otherwise
`s.limit = 1`), then `SQLQuery`. Returns the result together with the
descriptor state after the call. -/
def SQLQueryBuilder (s : Stmt) (target : Target) : BuildResult × Stmt :=
  match target with
  | .nonPtr kind =>
    (.err ("result type must be ptr, recv:" ++ kind), s)
  | .toOther kind =>
    (.panicked ("reflect: NumField of non-struct type " ++ kind), { s with limit := 1 })
  | .toSliceBad elemKind =>
    (.panicked ("reflect: NumField of non-struct type " ++ elemKind), s)
  | .toStruct fields =>
    let s1 := { s with limit := 1 }
    if fields.length == 0 then (.err "result not found field", s1)
    else (.ok (SQLQuery s1 fields), s1)
  | .toSlice fields _ =>
    if fields.length == 0 then (.err "result not found field", s)
    else (.ok (SQLQuery s fields), s)

/-! ## Spec-side definitions (for refinement-style claims) -/

/-- Written from the spec's words for the name-conversion rule (§4.1):
each uppercase letter is lowercased; an underscore is inserted before it
unless it is the first character (`prev = none`) or immediately follows
another uppercase letter. -/
def specConvertAux : Option Char → List Char → List Char
  | _, [] => []
  | prev, c :: cs =>
    if c.isUpper then
      (match prev with
        | none => []
        | some p => if p.isUpper then [] else ['_'])
        ++ Char.ofNat (c.toNat + 32) :: specConvertAux (some c) cs
    else
      c :: specConvertAux (some c) cs

/-- Spec-side name conversion (§4.1), to be compared with `FieldEscape`. -/
def specConvert (k : String) : String :=
  ⟨specConvertAux none k.data⟩

/-- The fields that survive the skip tests of the mutation compilers:
mapped and not tagged `auto`. -/
def emittedFields (fvs : List (GoField × Int)) : List (GoField × Int) :=
  fvs.filter (fun fv => isMapped fv.1 && fv.1.dbDefault != "auto")

/-- Spec-side expected column list of the mutation compilers. -/
def expectedCols (fvs : List (GoField × Int)) : List String :=
  (emittedFields fvs).map (fun fv => resolveName fv.1)

/-- Spec-side expected value-text list: the literal default when non-empty,
otherwise a placeholder. -/
def expectedVals (fvs : List (GoField × Int)) : List String :=
  (emittedFields fvs).map (fun fv => if fv.1.dbDefault != "" then fv.1.dbDefault else "?")

/-- Spec-side expected bound arguments: the record values of exactly the
mapped fields with no default directive, in declaration order. -/
def expectedRefs (fvs : List (GoField × Int)) : List Int :=
  (fvs.filter (fun fv => isMapped fv.1 && fv.1.dbDefault == "")).map (fun fv => fv.2)

/-- Number of mapped (usable) fields of a record type. -/
def mappedCount (fields : List GoField) : Nat :=
  (fields.filter (fun f => isMapped f)).length

/-- Whether a `Query` outcome is an ordinary error return (as opposed to a
success or a reflect panic, which never reaches the caller as an `error`). -/
def isErrorReturn : QOutcome → Bool
  | .errNotPtr _ => true
  | .errNoField => true
  | .errDriver _ => true
  | .errScan _ => true
  | .errNotFound => true
  | .panicked _ => false
  | .okSingle _ => false
  | .okSlice _ => false

/-! ## Helper lemmas -/

/-- The value of the Go local `up` at the start of a loop iteration, as a
function of the previously processed character: `true` initially and after
an uppercase letter. -/
def upFlag : Option Char → Bool
  | none => true
  | some p => p.isUpper

/-- The loop of `FieldEscape` computes the loop of the spec-side conversion:
the `up` flag holds exactly when there is no previous character or the
previous character is uppercase. -/
theorem fieldEscapeAux_eq_specConvertAux (cs : List Char) :
    ∀ prev : Option Char, fieldEscapeAux (upFlag prev) cs = specConvertAux prev cs := by
  induction cs with
  | nil => intro prev; rfl
  | cons c cs ih =>
    intro prev
    by_cases hc : c.isUpper
    · have hrec : fieldEscapeAux true cs = specConvertAux (some c) cs := by
        have := ih (some c)
        simpa [upFlag, hc] using this
      cases prev with
      | none => simp [fieldEscapeAux, specConvertAux, upFlag, hc, hrec]
      | some p =>
        by_cases hp : p.isUpper <;>
          simp [fieldEscapeAux, specConvertAux, upFlag, hc, hp, hrec]
    · have hrec : fieldEscapeAux false cs = specConvertAux (some c) cs := by
        have := ih (some c)
        simpa [upFlag, hc] using this
      simp [fieldEscapeAux, specConvertAux, hc, hrec]

/-- `FieldEscape` agrees everywhere with the conversion rule as the spec
words it. -/
theorem fieldEscape_eq_specConvert (k : String) : FieldEscape k = specConvert k := by
  have h := fieldEscapeAux_eq_specConvertAux k.data none
  simp only [upFlag] at h
  simp [FieldEscape, specConvert, h]

/-- Characterisation of the mutation compilers' field loop: the emitted
columns, value texts and bound arguments are exactly the spec-side
filter/map descriptions. -/
theorem mutationEmit_eq (fvs : List (GoField × Int)) :
    mutationEmit fvs = (expectedCols fvs, expectedVals fvs, expectedRefs fvs) := by
  induction fvs with
  | nil => rfl
  | cons fv rest ih =>
    obtain ⟨f, v⟩ := fv
    by_cases h1 : isMapped f
    · by_cases h2 : f.dbDefault = "auto"
      · simp [mutationEmit, ih, expectedCols, expectedVals, expectedRefs,
          emittedFields, List.filter_cons, h1, h2]
      · by_cases h3 : f.dbDefault = ""
        · simp [mutationEmit, ih, expectedCols, expectedVals, expectedRefs,
            emittedFields, List.filter_cons, h1, h2, h3]
        · simp [mutationEmit, ih, expectedCols, expectedVals, expectedRefs,
            emittedFields, List.filter_cons, h1, h2, h3]
    · simp [mutationEmit, ih, expectedCols, expectedVals, expectedRefs,
        emittedFields, List.filter_cons, h1]

/-! ## Claim theorems -/

/-- C1 counterexample: the claim says the identifier `HTTPStatus` (no
explicit tag) resolves to the column name `http_status`; in the code the
`S` of `Status` immediately follows the uppercase `P`, so no underscore is
inserted before it and the resolved name is `httpstatus`. -/
theorem claim_C1_counterexample :
    resolveName ⟨"HTTPStatus", "", false, "", ""⟩ = "httpstatus"
    ∧ ("httpstatus" : String) ≠ "http_status" := by
  exact ⟨rfl, by decide⟩

/-- C1 (amended): name resolution maps the identifier `HTTPStatus` (with no
explicit tag) to the column name `httpstatus`: the run of capitals H-T-T-P
is lowercased with no interior underscores, and no underscore separates it
from the following word either, because the first letter of `Status` itself
immediately follows an uppercase letter. -/
theorem claim_C1_amended :
    resolveName ⟨"HTTPStatus", "", false, "", ""⟩ = "httpstatus"
    ∧ FieldEscape "HTTPStatus" = "httpstatus"
    ∧ specConvert "HTTPStatus" = "httpstatus" := by
  exact ⟨rfl, rfl, rfl⟩

/-- C2 counterexample: a record type with one unexported field maps zero
usable columns, yet `Query` does not reject it — its `NumField` count is
non-zero, so the zero-field check passes and a (malformed) SQL string is
assembled and executed. -/
theorem claim_C2_counterexample :
    mappedCount [⟨"x", "orm", false, "", ""⟩] = 0
    ∧ (Query (NewStmt "t") (.toStruct [⟨"x", "orm", false, "", ""⟩])
        (.ok [])).builtSQL = ["selec from t limit 1"] := by
  exact ⟨rfl, rfl⟩

/-- C2 (amended): `Query`, `Insert` and `Update` reject a record type with
an error before any SQL text is built exactly when the struct type declares
zero fields at all (`reflect.NumField() == 0`); a type whose declared fields
are all unexported maps zero usable columns but is not rejected, and SQL
text is assembled for it. This theorem is the rejection direction; the
counterexample shows the non-rejection of an all-unexported type. -/
theorem claim_C2_amended (s : Stmt) (init : List Rec)
    (dbq : Except String (List (Except String Rec))) (dbx : Except String Int) :
    Query s (.toStruct []) dbq
        = ⟨.errNoField, [], [], 0, { s with limit := 1 }⟩
    ∧ Query s (.toSlice [] init) dbq = ⟨.errNoField, [], [], 0, s⟩
    ∧ Insert s [] dbx = ⟨.errNoField, [], []⟩
    ∧ Update s [] dbx = ⟨.errNoField, [], []⟩ := by
  exact ⟨rfl, rfl, rfl, rfl⟩

/-- C6: a descriptor with predicate `id = 1`, sort `id`, order `desc`,
group unset, limit 5 and offset 10 renders the condition
`" where id = 1 order by id desc limit 10,5"`, whatever the table. -/
theorem claim_C6_condition (table : String) :
    SQLCondition (Limit (Offset (Order (SortBy (Where (NewStmt table) "id = 1")
        "id") "desc") 10) 5)
      = " where id = 1 order by id desc limit 10,5" := by
  rfl

/-- C7: column-name resolution returns a non-empty explicit `db` tag
verbatim; otherwise it converts the identifier exactly as the spec's rule
describes (lowercase each uppercase letter, underscore before it unless it
is first or follows another uppercase letter); in particular `UserID`
yields `user_id` and `id` yields `id`. -/
theorem claim_C7_name_resolution :
    (∀ f : GoField,
        resolveName f = if f.dbTag == "" then specConvert f.name else f.dbTag)
    ∧ FieldEscape "UserID" = "user_id"
    ∧ FieldEscape "id" = "id" := by
  refine ⟨fun f => ?_, rfl, rfl⟩
  by_cases h : f.dbTag == "" <;>
    simp [resolveName, h, fieldEscape_eq_specConvert]

/-- C3: when the executed result set is empty, `Query` fails with the
distinguished `NotFound` error — for a single-record target (no row
scanned) and for a collection target that remains empty alike — and
`NotFound` is a different error from any driver or scan error. -/
theorem claim_C3_notfound (s : Stmt) (fields : List GoField)
    (h : fields ≠ []) :
    (Query s (.toStruct fields) (.ok [])).outcome = .errNotFound
    ∧ (Query s (.toSlice fields []) (.ok [])).outcome = .errNotFound
    ∧ (∀ e : String, QOutcome.errNotFound ≠ .errDriver e
        ∧ QOutcome.errNotFound ≠ .errScan e) := by
  have hlen : (fields.length == 0) = false := by
    simp [List.length_eq_zero, h]
  refine ⟨?_, ?_, fun e => ⟨by simp, by simp⟩⟩
  · simp [Query, hlen, queryLoopSingle]
  · simp [Query, hlen, queryLoopSlice]

/-- Witness for C3 at a one-field record type. -/
theorem claim_C3_witness :
    (Query (NewStmt "t") (.toStruct [⟨"ID", "", false, "", ""⟩])
        (.ok [])).outcome = .errNotFound
    ∧ (Query (NewStmt "t") (.toSlice [⟨"ID", "", false, "", ""⟩] [])
        (.ok [])).outcome = .errNotFound :=
  ⟨(claim_C3_notfound (NewStmt "t") [⟨"ID", "", false, "", ""⟩] (by decide)).1,
   (claim_C3_notfound (NewStmt "t") [⟨"ID", "", false, "", ""⟩] (by decide)).2.1⟩

/-- C4: for a single-record (pointer-to-struct) target the compiled SELECT
is built with limit fixed at 1: the build result is unchanged under any
previously set limit, the descriptor's limit is 1 afterwards, and the SQL
produced is that of the descriptor with limit 1. -/
theorem claim_C4_limit_forced (s : Stmt) (fields : List GoField) (l : Int)
    (h : fields ≠ []) :
    SQLQueryBuilder (Limit s l) (.toStruct fields)
        = SQLQueryBuilder s (.toStruct fields)
    ∧ (SQLQueryBuilder s (.toStruct fields)).2.limit = 1
    ∧ (SQLQueryBuilder s (.toStruct fields)).1
        = .ok (SQLQuery { s with limit := 1 } fields) := by
  have hlen : (fields.length == 0) = false := by
    simp [List.length_eq_zero, h]
  refine ⟨?_, ?_, ?_⟩
  · simp [SQLQueryBuilder, Limit]
  · simp [SQLQueryBuilder, hlen]
  · simp [SQLQueryBuilder, hlen]

/-- Witness for C4 at a one-field record type and previous limit 50. -/
theorem claim_C4_witness :
    SQLQueryBuilder (Limit (NewStmt "t") 50) (.toStruct [⟨"ID", "", false, "", ""⟩])
      = SQLQueryBuilder (NewStmt "t") (.toStruct [⟨"ID", "", false, "", ""⟩]) :=
  (claim_C4_limit_forced (NewStmt "t") [⟨"ID", "", false, "", ""⟩] 50 (by decide)).1

/-- C5: the insert and update compilers emit, per record field in
declaration order: nothing at all for an `auto`-default field; the literal
default text with no bound argument for a non-empty non-`auto` default; and
exactly one `?` placeholder with exactly one bound argument (the record's
field value) otherwise — so the placeholder-bearing fields and the bound
arguments are the same filtered sequence, index-aligned. -/
theorem claim_C5_mutation_emit (s : Stmt) (fvs : List (GoField × Int)) :
    mutationEmit fvs = (expectedCols fvs, expectedVals fvs, expectedRefs fvs)
    ∧ (SQLInsert s fvs).2 = expectedRefs fvs
    ∧ (SQLUpdate s fvs).2 = expectedRefs fvs := by
  refine ⟨mutationEmit_eq fvs, ?_, ?_⟩
  · simp [SQLInsert, mutationEmit_eq fvs]
  · simp [SQLUpdate, mutationEmit_eq fvs]

/-- C8 counterexample: a collection target whose element type is not a
struct (here a slice of `int`) is not rejected with an invalid-target
error: `reflect.NumField` panics on it, so `Query` never returns an error
value at all. -/
theorem claim_C8_counterexample :
    (Query (NewStmt "t") (.toSliceBad "int") (.ok [])).outcome
        = .panicked "reflect: NumField of non-struct type int"
    ∧ isErrorReturn (Query (NewStmt "t") (.toSliceBad "int") (.ok [])).outcome
        = false := by
  exact ⟨rfl, rfl⟩

/-- C8 (amended): for every target that is not a pointer, `Query` fails
immediately with the invalid-target error, no SQL is generated and nothing
is executed against the storage handle; a collection target whose element
type is not a struct, however, is not rejected with an error — the
reflection call panics on it (still with no SQL generated and nothing
executed). -/
theorem claim_C8_amended (s : Stmt) (kind : String)
    (db : Except String (List (Except String Rec))) :
    Query s (.nonPtr kind) db = ⟨.errNotPtr kind, [], [], 0, s⟩
    ∧ (Query s (.toSliceBad kind) db).outcome
        = .panicked ("reflect: NumField of non-struct type " ++ kind)
    ∧ (Query s (.toSliceBad kind) db).builtSQL = []
    ∧ (Query s (.toSliceBad kind) db).executed = [] := by
  exact ⟨rfl, rfl, rfl, rfl⟩

/-- C9: for a single-record target whose result set has at least one row
(and the first row scans successfully), `Query` consumes exactly one row,
assigns the first row's record to the target and succeeds; the remaining
rows are never consulted — the whole trace is the same as if the cursor
held only the first row. -/
theorem claim_C9_first_row (s : Stmt) (fields : List GoField) (r : Rec)
    (rest : List (Except String Rec)) (h : fields ≠ []) :
    (Query s (.toStruct fields) (.ok (.ok r :: rest))).outcome = .okSingle r
    ∧ (Query s (.toStruct fields) (.ok (.ok r :: rest))).rowsConsumed = 1
    ∧ Query s (.toStruct fields) (.ok (.ok r :: rest))
        = Query s (.toStruct fields) (.ok [.ok r]) := by
  have hlen : (fields.length == 0) = false := by
    simp [List.length_eq_zero, h]
  refine ⟨?_, ?_, ?_⟩ <;> simp [Query, hlen, queryLoopSingle]

/-- Witness for C9 at a one-field record type, first row `[7]`, one spare
row behind it. -/
theorem claim_C9_witness :
    (Query (NewStmt "t") (.toStruct [⟨"ID", "", false, "", ""⟩])
        (.ok [.ok [7], .ok [8]])).outcome = .okSingle [7] :=
  (claim_C9_first_row (NewStmt "t") [⟨"ID", "", false, "", ""⟩] [7] [.ok [8]]
    (by decide)).1

/-- C10: querying into a single-record target mutates the descriptor
itself: afterwards its limit is 1 while table, predicate, sort, order,
group and offset are unchanged — this holds whatever the driver returned,
and any subsequent compile with the same descriptor (also for a collection
target, which compiles `SQLQuery` on the descriptor as-is) renders with
limit 1. -/
theorem claim_C10_stmt_mutation (s : Stmt) (fields : List GoField)
    (db : Except String (List (Except String Rec))) :
    (Query s (.toStruct fields) db).stmtAfter = { s with limit := 1 }
    ∧ (Query s (.toStruct fields) db).stmtAfter.limit = 1
    ∧ (Query s (.toStruct fields) db).stmtAfter.table = s.table
    ∧ (Query s (.toStruct fields) db).stmtAfter.whereC = s.whereC
    ∧ (Query s (.toStruct fields) db).stmtAfter.sort = s.sort
    ∧ (Query s (.toStruct fields) db).stmtAfter.order = s.order
    ∧ (Query s (.toStruct fields) db).stmtAfter.group = s.group
    ∧ (Query s (.toStruct fields) db).stmtAfter.offset = s.offset
    ∧ (∀ fields2 : List GoField,
        SQLQuery (Query s (.toStruct fields) db).stmtAfter fields2
          = SQLQuery { s with limit := 1 } fields2) := by
  have hA : (Query s (.toStruct fields) db).stmtAfter = { s with limit := 1 } := by
    by_cases hlen : fields.length == 0
    · simp [Query, hlen]
    · cases db with
      | error e => simp [Query, hlen]
      | ok rows => simp [Query, hlen]
  refine ⟨hA, ?_, ?_, ?_, ?_, ?_, ?_, ?_, fun fields2 => ?_⟩ <;> rw [hA]

end Petrel.Orm
